import Mathlib

/-!
Shallow embedding of the bind-query construct implemented in
`src/opencog/atoms/pattern/BindLink.cc` (construction-time validation and
decomposition in `BindLink::init` / `BindLink::extract_variables`, the
execution driver `BindLink::do_execute`, and the result materializer
`BindLink::execute`).

External collaborators that the translation unit only calls — the pattern
matcher (`PatternLink::satisfy` together with the `DefaultImplicator`
callback), the name server's type hierarchy, the variable extractors of
`Variables`/`PatternLink`, and the atom store's `add_atom` — are either
taken as parameters (functions/predicates) or, where a claim needs their
contract, modelled from the specification and marked as such in their doc
comments.  Everything below those interfaces is translated directly from
the source.
-/

namespace BindLinkModel

/-- Atom type tag for `BIND_LINK` (an opaque code; the numeric value is
irrelevant, only its distinctness matters). -/
def BIND_LINK : Nat := 1

/-- Atom type tag for `SET_LINK`. -/
def SET_LINK : Nat := 2

/-- A hypergraph atom: a named node or a link over other atoms.  Handles in
the source are reference-counted pointers with structural identity inside
one atom store; here an atom is identified with its structure. -/
inductive Atom : Type where
  | node (t : Nat) (name : String)
  | link (t : Nat) (out : List Atom)

instance : Inhabited Atom := ⟨Atom.node 0 ""⟩

mutual

/-- Structural equality on atoms is decidable. -/
def Atom.decEq : (a b : Atom) → Decidable (a = b)
  | .node t n, .node t' n' =>
      match Nat.decEq t t', String.decEq n n' with
      | isTrue ht, isTrue hn => isTrue (by rw [ht, hn])
      | isFalse ht, _ => isFalse (by intro h; cases h; exact ht rfl)
      | _, isFalse hn => isFalse (by intro h; cases h; exact hn rfl)
  | .node _ _, .link _ _ => isFalse (by intro h; cases h)
  | .link _ _, .node _ _ => isFalse (by intro h; cases h)
  | .link t xs, .link t' ys =>
      match Nat.decEq t t', Atom.decEqList xs ys with
      | isTrue ht, isTrue hxs => isTrue (by rw [ht, hxs])
      | isFalse ht, _ => isFalse (by intro h; cases h; exact ht rfl)
      | _, isFalse hxs => isFalse (by intro h; cases h; exact hxs rfl)

/-- Structural equality on lists of atoms is decidable. -/
def Atom.decEqList : (xs ys : List Atom) → Decidable (xs = ys)
  | [], [] => isTrue rfl
  | [], _ :: _ => isFalse (by intro h; cases h)
  | _ :: _, [] => isFalse (by intro h; cases h)
  | x :: xs, y :: ys =>
      match Atom.decEq x y, Atom.decEqList xs ys with
      | isTrue hx, isTrue hxs => isTrue (by rw [hx, hxs])
      | isFalse hx, _ => isFalse (by intro h; cases h; exact hx rfl)
      | _, isFalse hxs => isFalse (by intro h; cases h; exact hxs rfl)

end

instance : DecidableEq Atom := Atom.decEq

/-- Errors thrown by the translation unit.  `structuralError` carries the
actual outgoing-set size (the source message prints `%d, sz`);
`typeMismatch` carries the offending type tag (the source prints its
name); `connectivityError` is the disconnected-components throw;
`matchError` stands for an exception escaping `PatternLink::satisfy`;
`noStoreError` is the store-unavailable failure of the store contract. -/
inductive BindError : Type where
  | structuralError (sz : Nat)
  | typeMismatch (t : Nat)
  | connectivityError
  | matchError
  | noStoreError
deriving DecidableEq

/-- The fields `BindLink::extract_variables` populates: `_vardecl` (absent
in the two-element form), `_body`, `_implicand`, and the variable scope
`_varlist` (held here as the list of variable names). -/
structure BindParts : Type where
  vardecl : Option Atom
  body : Atom
  implicand : Atom
  varlist : List String
deriving DecidableEq

/-- Translation of `BindLink::extract_variables` (BindLink.cc lines
82-107).  The free-variable discovery `_varlist.find_variables` and the
explicit-declaration parser `init_scoped_variables` live outside this
translation unit (Variables.cc / PatternLink.cc) and are taken as the
function parameters `fv` and `pd`. -/
def extract_variables (fv pd : Atom → List String) (oset : List Atom) :
    Except BindError BindParts :=
  let sz := oset.length
  if sz < 2 ∨ 3 < sz then
    Except.error (BindError.structuralError sz)
  else if sz = 2 then
    Except.ok ⟨none, oset.getD 0 default, oset.getD 1 default,
               fv (oset.getD 0 default)⟩
  else
    Except.ok ⟨some (oset.getD 0 default), oset.getD 1 default,
               oset.getD 2 default, pd (oset.getD 0 default)⟩

/-- Translation of the type check at the top of `BindLink::init`
(BindLink.cc lines 35-43): the root type must satisfy
`nameserver().isA(t, BIND_LINK)`.  The name server's type hierarchy is
outside this translation unit and is taken as the parameter `isA`. -/
def init_typecheck (isA : Nat → Nat → Bool) (t : Nat) :
    Except BindError Unit :=
  if ¬ isA t BIND_LINK then
    Except.error (BindError.typeMismatch t)
  else
    Except.ok ()

/-- An opaque reference to an atom store (`AtomSpace*`). -/
abbrev AtomSpaceRef := Nat

/-- Translation of the store resolution at the top of
`BindLink::do_execute` (BindLink.cc line 137):
`if (nullptr == as) as = _atom_space;` — an explicitly supplied store
wins, otherwise the construct's default store is used. -/
def resolve_store (asArg defaultAs : Option AtomSpaceRef) :
    Option AtomSpaceRef :=
  match asArg with
  | none => defaultAs
  | some a => some a

/-- Modelled from the spec: the store contract fails with a
`NoStoreError` when neither an explicit nor a default store exists
("fails with StoreUnavailableError if neither explicit nor default store
exists").  The raising itself happens in store code outside this
translation unit; the precedence part is `resolve_store`, translated from
the source. -/
def resolve_store_checked (asArg defaultAs : Option AtomSpaceRef) :
    Except BindError AtomSpaceRef :=
  match resolve_store asArg defaultAs with
  | some a => Except.ok a
  | none => Except.error BindError.noStoreError

/-- The observable outcome of one invocation of the external matcher
(`PatternLink::satisfy` with a `DefaultImplicator`), together with the
pattern metadata `do_execute` reads: `impl.get_result_set()`,
`pat.mandatory.size()`, `pat.optionals.size()`, `_virtual.size()`,
`_components.size()`, and the callback's `optionals_present()` flag.
`matcherError` records whether `satisfy` threw an exception. -/
structure MatcherOutcome : Type where
  resultSet : Finset Atom
  mandatory : Nat
  optionals : Nat
  virtuals : Nat
  components : Nat
  optionalsPresent : Bool
  matcherError : Bool

/-- Translation of `BindLink::do_execute` (BindLink.cc lines 135-192).
The matcher invocation is abstracted to its observable outcome `m`, and
the instantiation `impl.inst.execute(impl.implicand, true)` of the
absence branch to the atom `instImplicand`.  The `silent` parameter is
declared exactly as in the source, which never reads it. -/
def do_execute (m : MatcherOutcome) (instImplicand : Atom)
    (silent : Bool) : Except BindError (Finset Atom) :=
  let do_conn_check : Bool := false
  if do_conn_check ∧ m.virtuals = 0 ∧ 1 < m.components then
    Except.error BindError.connectivityError
  else if m.matcherError then
    Except.error BindError.matchError
  else if 0 < m.resultSet.card then
    Except.ok m.resultSet
  else if m.mandatory = 0 ∧ 0 < m.optionals ∧ ¬ m.optionalsPresent then
    Except.ok {instImplicand}
  else
    Except.ok ∅

/-- The unordered aggregate built by `createUnorderedLink(..., SET_LINK)`:
its identity is its type tag together with the (unordered, deduplicated)
member set. -/
structure Aggregate : Type where
  typ : Nat
  members : Finset Atom
deriving DecidableEq

/-- Translation of `createUnorderedLink` as used by `BindLink::execute`:
wrap a handle set into an unordered link of the given type. -/
def createUnorderedLink (t : Nat) (s : Finset Atom) : Aggregate := ⟨t, s⟩

/-- Modelled from the spec: `AtomSpace::add_atom` (outside this
translation unit) is a deduplicating, idempotent insertion — "insert
Fragment returns FragmentId, idempotent, deduplicating", returning the
canonical (possibly pre-existing) identifier.  The store is modelled as
the set of aggregates it holds, and the canonical identifier of a
structurally identical aggregate is the aggregate itself. -/
def add_atom (store : Finset Aggregate) (a : Aggregate) :
    Finset Aggregate × Aggregate :=
  (insert a store, a)

/-- Translation of `BindLink::execute` (BindLink.cc lines 194-209): wrap
the grounding set that `do_execute` returns into a `SET_LINK` unordered
aggregate, insert it into the store (the
`PLACE_RESULTS_IN_ATOMSPACE` branch is compiled in), and return it. -/
def execute (m : MatcherOutcome) (instImplicand : Atom) (silent : Bool)
    (store : Finset Aggregate) :
    Except BindError (Finset Aggregate × Aggregate) :=
  match do_execute m instImplicand silent with
  | Except.error e => Except.error e
  | Except.ok s =>
      let rewr := createUnorderedLink SET_LINK s
      Except.ok (add_atom store rewr)

/-! Concrete inputs used by witnesses and counterexamples. -/

/-- A concrete atom used in witnesses. -/
def atomA : Atom := Atom.node 3 "a"

/-- A second concrete atom used in witnesses. -/
def atomB : Atom := Atom.node 3 "b"

/-- A trivial variable extractor used to instantiate the extractor
parameters in witnesses. -/
def fvNone : Atom → List String := fun _ => []

/-- A matcher outcome for an absence query that found nothing: zero
groundings, zero mandatory clauses, one optional clause, optionals not
present, no error. -/
def mAbsent : MatcherOutcome := ⟨∅, 0, 1, 0, 1, false, false⟩

/-- A matcher outcome with zero groundings and one mandatory clause. -/
def mEmpty : MatcherOutcome := ⟨∅, 1, 0, 0, 1, false, false⟩

/-- A matcher outcome in which `PatternLink::satisfy` threw. -/
def mErr : MatcherOutcome := ⟨∅, 1, 0, 0, 1, false, true⟩

/-- A concrete type hierarchy for witnesses: each type is only a subtype
of itself. -/
def isAEq : Nat → Nat → Bool := fun a b => a == b

/-! Theorems settling the claims. -/

/-- C1: when the matcher reports zero groundings and the derived pattern
has zero mandatory clauses, at least one optional clause, and none of the
optional clauses were found present, `do_execute` returns a singleton
grounding set containing exactly one instantiation of the implicand. -/
theorem C1_absence_singleton (m : MatcherOutcome) (instImplicand : Atom)
    (silent : Bool) (hne : m.matcherError = false) (hz : m.resultSet = ∅)
    (hm : m.mandatory = 0) (ho : 0 < m.optionals)
    (hp : m.optionalsPresent = false) :
    do_execute m instImplicand silent = Except.ok {instImplicand} ∧
    ({instImplicand} : Finset Atom).card = 1 := by
  refine ⟨?_, Finset.card_singleton _⟩
  simp [do_execute, hne, hz, hm, ho, hp]

/-- C1 witness at a concrete absence-query outcome. -/
theorem C1_witness :
    do_execute mAbsent atomA true = Except.ok {atomA} ∧
    ({atomA} : Finset Atom).card = 1 :=
  C1_absence_singleton mAbsent atomA true rfl rfl rfl (by decide) rfl

/-- C2: when the matcher reports zero groundings and the absence-query
condition does not hold (in particular whenever there is at least one
mandatory clause), `do_execute` returns the empty grounding set, as a
normal `Except.ok` result and not an error. -/
theorem C2_zero_match_empty (m : MatcherOutcome) (instImplicand : Atom)
    (silent : Bool) (hne : m.matcherError = false) (hz : m.resultSet = ∅)
    (habs : ¬ (m.mandatory = 0 ∧ 0 < m.optionals ∧
               m.optionalsPresent = false)) :
    do_execute m instImplicand silent = Except.ok (∅ : Finset Atom) := by
  simp only [do_execute, Bool.false_eq_true, false_and, if_false, hne, hz,
    Finset.card_empty, lt_irrefl, if_false, Bool.not_eq_true]
  rw [if_neg habs]

/-- C2 witness: one mandatory clause, zero groundings. -/
theorem C2_witness :
    do_execute mEmpty atomA true = Except.ok (∅ : Finset Atom) :=
  C2_zero_match_empty mEmpty atomA true rfl rfl (by decide)

/-- C3 counterexample: with `silent = true` and a matcher error,
`do_execute` still propagates `matchError` instead of behaving as a
zero-match execution (which, with one mandatory clause, would return the
empty grounding set). -/
theorem C3_counterexample :
    do_execute mErr atomA true = Except.error BindError.matchError ∧
    do_execute mErr atomA true ≠ Except.ok (∅ : Finset Atom) := by
  have h : do_execute mErr atomA true = Except.error BindError.matchError := rfl
  exact ⟨h, by rw [h]; exact fun hcontra => Except.noConfusion hcontra⟩

/-- C3 amended: the `silent` parameter of `do_execute` is accepted but
never read, so internal matcher errors propagate to the caller as a
`MatchError` for every value of `silent`; they are not suppressed even
when `silent` is true. -/
theorem C3_amended_silent_ignored (m : MatcherOutcome)
    (instImplicand : Atom) (silent : Bool) (he : m.matcherError = true) :
    do_execute m instImplicand silent = Except.error BindError.matchError := by
  simp [do_execute, he]

/-- C3 witness: the amended behavior at both values of `silent`. -/
theorem C3_witness :
    do_execute mErr atomA false = Except.error BindError.matchError ∧
    do_execute mErr atomA true = Except.error BindError.matchError :=
  ⟨C3_amended_silent_ignored mErr atomA false rfl,
   C3_amended_silent_ignored mErr atomA true rfl⟩

/-- C4: an outgoing sequence of size 0, 1, or 4 and more is rejected by
`extract_variables` with a `structuralError` carrying the actual size,
while sizes 2 and 3 are accepted. -/
theorem C4_arity_check (fv pd : Atom → List String) (oset : List Atom) :
    (oset.length < 2 ∨ 3 < oset.length →
      extract_variables fv pd oset
        = Except.error (BindError.structuralError oset.length)) ∧
    (oset.length = 2 ∨ oset.length = 3 →
      ∃ p, extract_variables fv pd oset = Except.ok p) := by
  constructor
  · intro h
    simp only [extract_variables]
    rw [if_pos h]
  · intro h
    simp only [extract_variables]
    rcases h with h | h <;> rw [if_neg (by omega)] <;> simp [h]

/-- C4 witness: size 0 is rejected naming the size, size 2 is accepted. -/
theorem C4_witness :
    extract_variables fvNone fvNone ([] : List Atom)
      = Except.error (BindError.structuralError 0) ∧
    ∃ p, extract_variables fvNone fvNone [atomA, atomB] = Except.ok p :=
  ⟨(C4_arity_check fvNone fvNone []).1 (Or.inl (by decide)),
   (C4_arity_check fvNone fvNone [atomA, atomB]).2 (Or.inl rfl)⟩

/-- C5: a size-2 outgoing sequence decomposes into `body = seq[0]`,
`implicand = seq[1]` with the variable scope discovered as the free
variables of the body, and a size-3 sequence decomposes into
`vardecl = seq[0]`, `body = seq[1]`, `implicand = seq[2]` with the scope
parsed from the explicit declaration. -/
theorem C5_decomposition (fv pd : Atom → List String) (v b i : Atom) :
    extract_variables fv pd [b, i] = Except.ok ⟨none, b, i, fv b⟩ ∧
    extract_variables fv pd [v, b, i] = Except.ok ⟨some v, b, i, pd v⟩ :=
  ⟨rfl, rfl⟩

/-- C6: an explicitly supplied store reference takes precedence over the
construct's default store reference, and when neither is available the
resolution fails with `noStoreError`. -/
theorem C6_store_resolution (a d : AtomSpaceRef) :
    resolve_store_checked (some a) (some d) = Except.ok a ∧
    resolve_store_checked (some a) none = Except.ok a ∧
    resolve_store_checked none (some d) = Except.ok d ∧
    resolve_store_checked none none = Except.error BindError.noStoreError :=
  ⟨rfl, rfl, rfl, rfl⟩

/-- C7: for every matcher outcome — in particular for disconnected
multi-component patterns — `do_execute` never raises the connectivity
error, because the `do_conn_check` flag is hardcoded to false. -/
theorem C7_no_connectivity_error (m : MatcherOutcome)
    (instImplicand : Atom) (silent : Bool) :
    do_execute m instImplicand silent
      ≠ Except.error BindError.connectivityError := by
  simp only [do_execute, Bool.false_eq_true, false_and, if_false]
  split
  · simp
  · split
    · simp
    · split <;> simp

/-- C8: a root type that is not a recognized bind kind is rejected by the
`init` type check with a `typeMismatch` naming the offending kind, while
a recognized bind kind passes the check. -/
theorem C8_typecheck (isA : Nat → Nat → Bool) (t : Nat) :
    (isA t BIND_LINK = false →
       init_typecheck isA t = Except.error (BindError.typeMismatch t)) ∧
    (isA t BIND_LINK = true → init_typecheck isA t = Except.ok ()) := by
  constructor <;> intro h <;> simp [init_typecheck, h]

/-- C8 witness: under the reflexive type hierarchy, a non-bind type tag
is rejected naming the tag and `BIND_LINK` itself passes. -/
theorem C8_witness :
    init_typecheck isAEq 99 = Except.error (BindError.typeMismatch 99) ∧
    init_typecheck isAEq BIND_LINK = Except.ok () :=
  ⟨(C8_typecheck isAEq 99).1 rfl, (C8_typecheck isAEq BIND_LINK).2 rfl⟩

/-- C9: materialization is order-independent — permuting the matcher's
internal result ordering yields the same aggregate and the same store
identity — and insertion is idempotent — inserting a structurally
identical aggregate twice returns the same identifier and leaves the
store unchanged. -/
theorem C9_materialization (l₁ l₂ : List Atom) (store : Finset Aggregate)
    (hperm : l₁.Perm l₂) :
    createUnorderedLink SET_LINK l₁.toFinset
      = createUnorderedLink SET_LINK l₂.toFinset ∧
    (add_atom store (createUnorderedLink SET_LINK l₁.toFinset)).2
      = (add_atom store (createUnorderedLink SET_LINK l₂.toFinset)).2 ∧
    ∀ a : Aggregate,
      (add_atom (add_atom store a).1 a).2 = (add_atom store a).2 ∧
      (add_atom (add_atom store a).1 a).1 = (add_atom store a).1 := by
  have h : l₁.toFinset = l₂.toFinset := List.toFinset_eq_of_perm l₁ l₂ hperm
  refine ⟨by rw [h], by rw [h], fun a => ⟨rfl, ?_⟩⟩
  simp [add_atom, Finset.insert_idem]

/-- C9 witness: a concrete permutation of a two-element grounding list
and a concrete double insertion. -/
theorem C9_witness :
    (createUnorderedLink SET_LINK ([atomA, atomB] : List Atom).toFinset
       = createUnorderedLink SET_LINK ([atomB, atomA] : List Atom).toFinset) ∧
    (add_atom ∅ (createUnorderedLink SET_LINK
        ([atomA, atomB] : List Atom).toFinset)).2
      = (add_atom ∅ (createUnorderedLink SET_LINK
          ([atomB, atomA] : List Atom).toFinset)).2 ∧
    ∀ a : Aggregate,
      (add_atom (add_atom ∅ a).1 a).2 = (add_atom (∅ : Finset Aggregate) a).2 ∧
      (add_atom (add_atom ∅ a).1 a).1 = (add_atom (∅ : Finset Aggregate) a).1 :=
  C9_materialization [atomA, atomB] [atomB, atomA] ∅
    (List.Perm.swap atomB atomA [])

/-- C10: whenever `do_execute` produces a grounding set — including the
empty one — `execute` wraps it in a `SET_LINK` unordered aggregate,
unconditionally inserts that aggregate into the store, and returns the
aggregate (never a null result); the aggregate is a member of the
resulting store. -/
theorem C10_materialize_always (m : MatcherOutcome) (instImplicand : Atom)
    (silent : Bool) (store : Finset Aggregate) (s : Finset Atom)
    (h : do_execute m instImplicand silent = Except.ok s) :
    execute m instImplicand silent store
      = Except.ok (insert (createUnorderedLink SET_LINK s) store,
                   createUnorderedLink SET_LINK s) ∧
    createUnorderedLink SET_LINK s
      ∈ insert (createUnorderedLink SET_LINK s) store := by
  refine ⟨?_, Finset.mem_insert_self _ _⟩
  simp [execute, h, add_atom]

/-- C10 witness: a zero-match execution still materializes an empty
`SET_LINK` aggregate and persists it in the store. -/
theorem C10_witness :
    execute mEmpty atomA true ∅
      = Except.ok (insert (createUnorderedLink SET_LINK ∅) ∅,
                   createUnorderedLink SET_LINK ∅) ∧
    createUnorderedLink SET_LINK ∅
      ∈ insert (createUnorderedLink SET_LINK (∅ : Finset Atom))
          (∅ : Finset Aggregate) :=
  C10_materialize_always mEmpty atomA true ∅ ∅ rfl

end BindLinkModel
